import Mathlib

/-!
Verification of the protocol compilation pipeline of a multi-channel
light controller.  The definitions below are shallow embeddings of the
Python functions in src/lcfunc.py and src/light_controller_parser.py.
Python floats are modelled as exact rationals, Python int() as
truncation toward zero, and pandas data frames as lists of named
columns over rationals.
-/

/-- Python int() applied to a rational: truncation toward zero. -/
def pyInt (q : ℚ) : ℤ := if 0 ≤ q then ⌊q⌋ else ⌈q⌉

/-- Python list repetition pat * n: n copies of pat concatenated. -/
def repeatList (pat : List α) : ℕ → List α
  | 0 => []
  | n + 1 => pat ++ repeatList pat n

/-- Expansion of a compressed channel representation: each pattern is
repeated its repeats count and the results are concatenated in output
order. -/
def expandPatterns (ps : List (List α × ℕ)) : List α :=
  ps.foldr (fun p acc => repeatList p.1 p.2 ++ acc) []

/-- Inner while loop of FindRepeatedPatterns, src/lcfunc.py lines 2241 to 2246:
count = 1; j = i + pattern_length;
while j + pattern_length <= len(combined) and tuple(combined[j:j+pattern_length]) == current_pattern:
  count += 1; j += pattern_length.
The list argument is the suffix of combined starting at j; the condition
j + pattern_length <= len(combined) is L <= xs.length on that suffix.
The fuel argument only makes the recursion structural: every iteration
consumes L elements, and L is at least 1 whenever the guard holds, so any
fuel of at least xs.length reproduces the Python loop exactly.  The guard
0 < L records that the Python loop does not terminate for pattern_length 0.
Returns the number of extra repeats found and the remaining suffix. -/
def countRepeats [DecidableEq α] (pat : List α) (L : ℕ) : ℕ → List α → ℕ × List α
  | 0, xs => (0, xs)
  | fuel + 1, xs =>
    if 0 < L ∧ L ≤ xs.length ∧ xs.take L = pat then
      let r := countRepeats pat L fuel (xs.drop L)
      (r.1 + 1, r.2)
    else (0, xs)

/-- Outer while loop of FindRepeatedPatterns, src/lcfunc.py lines 2236 to 2248:
i = 0; while i < len(combined): current_pattern = tuple(combined[i:i+pattern_length]); ...
patterns.append(...); i = j.
The list argument is the suffix of combined starting at i, so the loop
condition i < len(combined) is xs being nonempty.  As above the fuel is
only a structural termination device and any fuel of at least xs.length
reproduces the Python loop. -/
def findRepeatedPatternsGo [DecidableEq α] (L : ℕ) : ℕ → List α → List (List α × ℕ)
  | 0, _ => []
  | fuel + 1, xs =>
    if 0 < L ∧ xs ≠ [] then
      let pat := xs.take L
      let r := countRepeats pat L (xs.drop L).length (xs.drop L)
      (pat, r.1 + 1) :: findRepeatedPatternsGo L fuel r.2
    else []

/-- Per channel core of FindRepeatedPatterns, src/lcfunc.py lines 2169 to 2251,
acting on the zipped per row tuples of one channel (the function is generic
in the tuple type: the code zips either (status, time_ms) or
(status, time_ms, period, pulse_width) tuples). -/
def FindRepeatedPatterns [DecidableEq α] (L : ℕ) (xs : List α) : List (List α × ℕ) :=
  findRepeatedPatternsGo L xs.length xs

/-- A timeline entry of the old format: (status, time_ms). -/
abbrev Entry2 := ℕ × ℕ

/-- A timeline entry of the pulse format: (status, time_ms, period, pulse_width). -/
abbrev Entry4 := ℕ × ℕ × ℕ × ℕ

/-- Pulse data consistency loop of FindRepeatedPatterns, src/lcfunc.py
lines 2205 to 2228: for every row, period and pulse_width must be both
zero or both positive. -/
def validatePulseData : List Entry4 → Except String Unit
  | [] => .ok ()
  | e :: rest =>
    if e.2.2.1 = 0 ∧ e.2.2.2 = 0 then validatePulseData rest
    else if 0 < e.2.2.1 ∧ e.2.2.2 = 0 then
      .error "period specified but pulse_width is 0 or empty"
    else if e.2.2.1 = 0 ∧ 0 < e.2.2.2 then
      .error "pulse_width specified but period is 0 or empty"
    else validatePulseData rest

/-- FindRepeatedPatterns on the pulse format, including the pulse data
consistency validation that precedes the compression loop in
src/lcfunc.py lines 2200 to 2248. -/
def FindRepeatedPatterns4 (L : ℕ) (tl : List Entry4) :
    Except String (List (List Entry4 × ℕ)) :=
  match validatePulseData tl with
  | .error e => .error e
  | .ok _ => .ok (FindRepeatedPatterns L tl)

theorem countRepeats_snd_length [DecidableEq α] (pat : List α) (L : ℕ) :
    ∀ (fuel : ℕ) (xs : List α), (countRepeats pat L fuel xs).2.length ≤ xs.length := by
  intro fuel
  induction fuel with
  | zero => intro xs; simp [countRepeats]
  | succ n ih =>
    intro xs
    simp only [countRepeats]
    split
    · exact le_trans (ih (xs.drop L)) (by simp)
    · exact le_refl _

theorem countRepeats_expand [DecidableEq α] (pat : List α) (L : ℕ) :
    ∀ (fuel : ℕ) (xs : List α),
      repeatList pat (countRepeats pat L fuel xs).1 ++ (countRepeats pat L fuel xs).2 = xs := by
  intro fuel
  induction fuel with
  | zero => intro xs; simp [countRepeats, repeatList]
  | succ n ih =>
    intro xs
    simp only [countRepeats]
    split
    · next h =>
      simp only [repeatList, List.append_assoc, ih (xs.drop L)]
      rw [← h.2.2, List.take_append_drop]
    · simp [repeatList]

theorem findRepeatedPatternsGo_expand [DecidableEq α] (L : ℕ) (hL : 0 < L) :
    ∀ (fuel : ℕ) (xs : List α), xs.length ≤ fuel →
      expandPatterns (findRepeatedPatternsGo L fuel xs) = xs := by
  intro fuel
  induction fuel with
  | zero =>
    intro xs hlen
    rw [List.length_eq_zero.mp (Nat.le_zero.mp hlen)]
    simp [findRepeatedPatternsGo, expandPatterns]
  | succ n ih =>
    intro xs hlen
    simp only [findRepeatedPatternsGo]
    split
    · next h =>
      have hd : (countRepeats (xs.take L) L (xs.drop L).length (xs.drop L)).2.length ≤ n := by
        have h1 := countRepeats_snd_length (xs.take L) L (xs.drop L).length (xs.drop L)
        have hx : 1 ≤ xs.length := List.length_pos.mpr h.2
        have h2 : (xs.drop L).length = xs.length - L := List.length_drop L xs
        have h3 : 0 < L := h.1
        omega
      have hrec := ih _ hd
      simp only [expandPatterns, List.foldr_cons, repeatList, List.append_assoc] at hrec ⊢
      rw [hrec, countRepeats_expand, List.take_append_drop]
    · next h =>
      rcases not_and_or.mp h with h1 | h2
      · exact absurd hL h1
      · rw [not_not.mp h2]; simp [expandPatterns]

theorem expand_FindRepeatedPatterns [DecidableEq α] (L : ℕ) (hL : 0 < L) (xs : List α) :
    expandPatterns (FindRepeatedPatterns L xs) = xs :=
  findRepeatedPatternsGo_expand L hL xs.length xs (le_refl _)

/-- Claim C1: for every per channel timeline, in either tuple format, and
every pattern length L in 1, 2, 4, 8, concatenating each emitted pattern
repeated its repeats count, in output order, reproduces the input
timeline exactly. -/
theorem c1_compressor_roundtrip (L : ℕ) (hL : L = 1 ∨ L = 2 ∨ L = 4 ∨ L = 8) :
    (∀ tl : List Entry2, expandPatterns (FindRepeatedPatterns L tl) = tl) ∧
    (∀ (tl : List Entry4) (ps : List (List Entry4 × ℕ)),
      FindRepeatedPatterns4 L tl = .ok ps → expandPatterns ps = tl) := by
  have hpos : 0 < L := by rcases hL with h | h | h | h <;> omega
  refine ⟨fun tl => expand_FindRepeatedPatterns L hpos tl, fun tl ps hok => ?_⟩
  unfold FindRepeatedPatterns4 at hok
  cases hval : validatePulseData tl with
  | error e => rw [hval] at hok; exact absurd hok (by simp)
  | ok u =>
    rw [hval] at hok
    simp only [Except.ok.injEq] at hok
    rw [← hok]
    exact expand_FindRepeatedPatterns L hpos tl

theorem c1_compressor_roundtrip_witness :
    ((2 : ℕ) = 1 ∨ (2 : ℕ) = 2 ∨ (2 : ℕ) = 4 ∨ (2 : ℕ) = 8) ∧
    expandPatterns (FindRepeatedPatterns 2 [((1 : ℕ), (1000 : ℕ)), (0, 1000), (1, 500)]) =
      [((1 : ℕ), (1000 : ℕ)), (0, 1000), (1, 500)] :=
  ⟨by decide, (c1_compressor_roundtrip 2 (by decide)).1 _⟩

/-- Python enumerate starting at k. -/
def enumFrom (k : ℕ) : List α → List (ℕ × α)
  | [] => []
  | x :: xs => (k, x) :: enumFrom (k + 1) xs

/-- status_values of a pattern in the old format, src/lcfunc.py line 2300:
the str() images of the status components. -/
def statusStrings2 (pat : List Entry2) : List String := pat.map (fun e => toString e.1)

/-- time_values of a pattern in the old format, src/lcfunc.py line 2301. -/
def timeStrings2 (pat : List Entry2) : List String := pat.map (fun e => toString e.2)

/-- Dead pattern test of GeneratePatternCommands for the old format,
src/lcfunc.py line 2304: all status strings and all time strings are the
string 0. -/
def isDeadPattern2 (pat : List Entry2) : Bool :=
  ((statusStrings2 pat).all (fun s => s == "0")) &&
  ((timeStrings2 pat).all (fun t => t == "0"))

/-- Command line built for one pattern in the old format,
src/lcfunc.py lines 2307 to 2309; i is the position of the pattern in the
full per channel list, the emitted index is i + 1. -/
def patternCmd2 (channelNum : ℕ) (i : ℕ) (p : List Entry2 × ℕ) : String :=
  "PATTERN:" ++ toString (i + 1) ++ ";CH:" ++ toString channelNum ++
  ";STATUS:" ++ String.intercalate "," (statusStrings2 p.1) ++
  ";TIME_MS:" ++ String.intercalate "," (timeStrings2 p.1) ++
  ";REPEATS:" ++ toString p.2 ++ "\n"

/-- Per channel loop of GeneratePatternCommands for the old format,
src/lcfunc.py lines 2262 and 2298 to 2310: enumerate the patterns, skip
the dead ones, emit a command for each of the others. -/
def channelPatternCommands2 (channelNum : ℕ) (ps : List (List Entry2 × ℕ)) : List String :=
  (enumFrom 0 ps).filterMap fun ip =>
    if isDeadPattern2 ip.2.1 then none else some (patternCmd2 channelNum ip.1 ip.2)

/-- GeneratePatternCommands, src/lcfunc.py lines 2253 to 2311, old format:
channels are given as (channel number, compressed pattern list) pairs, in
dictionary order; the channel number is int(channel_name.replace(CH, )). -/
def GeneratePatternCommands2 (channels : List (ℕ × List (List Entry2 × ℕ))) : List String :=
  channels.foldr (fun c acc => channelPatternCommands2 c.1 c.2 ++ acc) []

/-- status_values for the pulse format, src/lcfunc.py line 2266. -/
def statusStrings4 (pat : List Entry4) : List String := pat.map (fun e => toString e.1)

/-- time_values for the pulse format, src/lcfunc.py line 2267. -/
def timeStrings4 (pat : List Entry4) : List String := pat.map (fun e => toString e.2.1)

/-- period_values for the pulse format, src/lcfunc.py line 2268. -/
def periodValues4 (pat : List Entry4) : List ℕ := pat.map (fun e => e.2.2.1)

/-- pw_values for the pulse format, src/lcfunc.py line 2269. -/
def pwValues4 (pat : List Entry4) : List ℕ := pat.map (fun e => e.2.2.2)

/-- has_pulse test, src/lcfunc.py lines 2272 to 2276: some period or
pulse width entry is non zero (None and NaN are not representable in the
integer timeline model; the code maps them to no pulse as well). -/
def hasPulse4 (pat : List Entry4) : Bool :=
  (List.zip (periodValues4 pat) (pwValues4 pat)).any (fun q => q.1 != 0 || q.2 != 0)

/-- Dead pattern test of GeneratePatternCommands for the pulse format,
src/lcfunc.py line 2279: only the status strings and the time strings are
examined, period and pulse width are ignored. -/
def isDeadPattern4 (pat : List Entry4) : Bool :=
  ((statusStrings4 pat).all (fun s => s == "0")) &&
  ((timeStrings4 pat).all (fun t => t == "0"))

/-- PULSE clause, src/lcfunc.py lines 2283 to 2291. -/
def pulseString4 (pat : List Entry4) : String :=
  if hasPulse4 pat then
    ";PULSE:" ++ String.intercalate ","
      ((List.zip (periodValues4 pat) (pwValues4 pat)).map
        (fun q => "T" ++ toString q.1 ++ "pw" ++ toString q.2)) ++ ","
  else ""

/-- Command line built for one pattern in the pulse format,
src/lcfunc.py lines 2294 to 2296. -/
def patternCmd4 (channelNum : ℕ) (i : ℕ) (p : List Entry4 × ℕ) : String :=
  "PATTERN:" ++ toString (i + 1) ++ ";CH:" ++ toString channelNum ++
  ";STATUS:" ++ String.intercalate "," (statusStrings4 p.1) ++
  ";TIME_MS:" ++ String.intercalate "," (timeStrings4 p.1) ++
  ";REPEATS:" ++ toString p.2 ++ pulseString4 p.1 ++ "\n"

/-- Per channel loop of GeneratePatternCommands for the pulse format,
src/lcfunc.py lines 2262 to 2297. -/
def channelPatternCommands4 (channelNum : ℕ) (ps : List (List Entry4 × ℕ)) : List String :=
  (enumFrom 0 ps).filterMap fun ip =>
    if isDeadPattern4 ip.2.1 then none else some (patternCmd4 channelNum ip.1 ip.2)

/-- GeneratePatternCommands, pulse format, over all channels. -/
def GeneratePatternCommands4 (channels : List (ℕ × List (List Entry4 × ℕ))) : List String :=
  channels.foldr (fun c acc => channelPatternCommands4 c.1 c.2 ++ acc) []

/-- The PATTERN indices emitted for one channel in the pulse format:
position in the full compressed pattern list plus one, dead patterns
skipped. -/
def emittedIndices4 (ps : List (List Entry4 × ℕ)) : List ℕ :=
  (enumFrom 0 ps).filterMap fun ip =>
    if isDeadPattern4 ip.2.1 then none else some (ip.1 + 1)

theorem enumFrom_get_mem (xs : List α) :
    ∀ (k n : ℕ) (h : n < xs.length), (k + n, xs.get ⟨n, h⟩) ∈ enumFrom k xs := by
  induction xs with
  | nil => intro k n h; simp at h
  | cons x t ih =>
    intro k n h
    cases n with
    | zero => simp [enumFrom]
    | succ m =>
      have hm : m < t.length := by simpa using h
      have := ih (k + 1) m hm
      simp only [enumFrom, List.mem_cons]
      right
      have harith : k + (m + 1) = k + 1 + m := by omega
      rw [harith]
      simpa using this

theorem enumFrom_mem_spec (xs : List α) :
    ∀ (k i : ℕ) (a : α), (i, a) ∈ enumFrom k xs →
      ∃ (n : ℕ) (h : n < xs.length), i = k + n ∧ xs.get ⟨n, h⟩ = a := by
  induction xs with
  | nil => intro k i a h; simp [enumFrom] at h
  | cons x t ih =>
    intro k i a h
    simp only [enumFrom, List.mem_cons] at h
    rcases h with h | h
    · refine ⟨0, by simp, ?_, ?_⟩
      · simpa using congrArg Prod.fst h
      · simpa using (congrArg Prod.snd h).symm
    · obtain ⟨n, hn, hi, hget⟩ := ih (k + 1) i a h
      exact ⟨n + 1, by simpa using hn, by omega, by simpa using hget⟩

theorem filterMap_ite_length (l : List α) (p : α → Bool) (f : α → β) (g : α → γ) :
    (l.filterMap fun x => if p x then none else some (f x)).length =
    (l.filterMap fun x => if p x then none else some (g x)).length := by
  induction l with
  | nil => rfl
  | cons x t ih =>
    by_cases hp : p x
    · simp [List.filterMap_cons, hp, ih]
    · simp [List.filterMap_cons, hp, ih]

/-- Claim C10: the emitter gives each line the index i + 1 of the pattern
position in the full compressed list and its dead pattern test looks only
at status and time values, so an all zero (status, time) pattern is
skipped even with non zero period or pulse width values, its index is
never reassigned, and the indices emitted for later live patterns make
the output non contiguous. -/
theorem c10_emitter_skips_and_indices (ch : ℕ) (ps : List (List Entry4 × ℕ))
    (k j : ℕ) (hk : k < ps.length) (hj : j < ps.length) (hkj : k < j)
    (hdead : isDeadPattern4 (ps.get ⟨k, hk⟩).1 = true)
    (halive : isDeadPattern4 (ps.get ⟨j, hj⟩).1 = false) :
    (k + 1) ∉ emittedIndices4 ps ∧
    (j + 1) ∈ emittedIndices4 ps ∧
    (channelPatternCommands4 ch ps).length = (emittedIndices4 ps).length ∧
    (∀ pat : List Entry4, (∀ e ∈ pat, e.1 = 0 ∧ e.2.1 = 0) → isDeadPattern4 pat = true) := by
  refine ⟨?_, ?_, ?_, ?_⟩
  · intro hmem
    obtain ⟨ip, hin, heq⟩ := List.mem_filterMap.mp hmem
    by_cases hc : isDeadPattern4 ip.2.1
    · rw [if_pos hc] at heq; exact absurd heq (by simp)
    · rw [if_neg hc] at heq
      have hip1 : ip.1 = k := by
        have := Option.some.inj heq
        omega
      obtain ⟨n, hn, hi, hget⟩ := enumFrom_mem_spec ps 0 ip.1 ip.2 hin
      have hnk : n = k := by omega
      subst hnk
      have : ps.get ⟨n, hn⟩ = ps.get ⟨n, hk⟩ := rfl
      rw [this, hget] at hdead
      exact hc (by rw [hdead])
  · apply List.mem_filterMap.mpr
    refine ⟨(j, ps.get ⟨j, hj⟩), ?_, ?_⟩
    · have := enumFrom_get_mem ps 0 j hj
      simpa using this
    · rw [if_neg (by simp only [Bool.not_eq_true]; exact halive)]
  · unfold channelPatternCommands4 emittedIndices4
    exact filterMap_ite_length (enumFrom 0 ps) (fun ip => isDeadPattern4 ip.2.1)
      (fun ip => patternCmd4 ch ip.1 ip.2) (fun ip => ip.1 + 1)
  · intro pat hall
    simp only [isDeadPattern4, statusStrings4, timeStrings4, Bool.and_eq_true,
      List.all_eq_true, List.mem_map]
    constructor
    · rintro s ⟨e, he, rfl⟩
      rw [(hall e he).1]
      rfl
    · rintro t ⟨e, he, rfl⟩
      rw [(hall e he).2]
      rfl

theorem c10_emitter_skips_and_indices_witness :
    (1 : ℕ) ∉ emittedIndices4 [([((0 : ℕ), (0 : ℕ), (2000 : ℕ), (100 : ℕ))], 3),
        ([(1, 1000, 0, 0)], 2)] ∧
    (2 : ℕ) ∈ emittedIndices4 [([((0 : ℕ), (0 : ℕ), (2000 : ℕ), (100 : ℕ))], 3),
        ([(1, 1000, 0, 0)], 2)] := by
  have h := c10_emitter_skips_and_indices 1
    [([((0 : ℕ), (0 : ℕ), (2000 : ℕ), (100 : ℕ))], 3), ([(1, 1000, 0, 0)], 2)]
    0 1 (by decide) (by decide) (by decide) (by decide) (by decide)
  exact ⟨h.1, h.2.1⟩

/-- Claim C5: the single channel timeline (1,1000),(0,1000),(1,1000),(0,1000)
with pattern length 2 compresses to one pattern ((1,1000),(0,1000)) with
repeats 2, and the emitter produces for it exactly the newline terminated
line PATTERN:1;CH:1;STATUS:1,0;TIME_MS:1000,1000;REPEATS:2. -/
theorem c5_end_to_end_scenario :
    FindRepeatedPatterns 2 [((1 : ℕ), (1000 : ℕ)), (0, 1000), (1, 1000), (0, 1000)] =
      [([((1 : ℕ), (1000 : ℕ)), (0, 1000)], 2)] ∧
    GeneratePatternCommands2 [(1, [([((1 : ℕ), (1000 : ℕ)), (0, 1000)], 2)])] =
      ["PATTERN:1;CH:1;STATUS:1,0;TIME_MS:1000,1000;REPEATS:2\n"] := by
  constructor
  · decide
  · rfl

/-- Error or success discriminator for Except results. -/
def isErr : Except ε α → Bool
  | .error _ => true
  | .ok _ => false

/-- A duty cycle cell: a number, a string with a trailing percent sign,
a nonempty plain numeric string, or an empty string (src/lcfunc.py lines
926 to 931).  Absent and NaN cells enter the row resolver as the number
0 (src/lcfunc.py lines 917 and 923). -/
inductive DutyCycleIn where
  | num (q : ℚ)
  | pctStr (q : ℚ)
  | numStr (q : ℚ)
  | emptyStr
deriving DecidableEq

/-- Duty cycle cell parsing, src/lcfunc.py lines 926 to 931: a string
with a trailing percent sign is stripped of it and read as a float, a
nonempty plain string is read as a float, the empty string reads as 0. -/
def parseDc : DutyCycleIn → ℚ
  | .num q => q
  | .pctStr q => q
  | .numStr q => q
  | .emptyStr => 0

/-- Duty cycle normalization, src/lcfunc.py lines 933 to 936: a value
strictly between 0 and 1, or equal to 1, is treated as a decimal
fraction and scaled by 100. -/
def normalizeDc (dc : ℚ) : ℚ := if 0 < dc ∧ dc ≤ 1 then dc * 100 else dc

/-- Row level core of NormalizePulseParameters, src/lcfunc.py lines 913
to 1011: resolve one row of (frequency, period, pulse_width, duty_cycle)
to the canonical (period, pulse_width) pair of integer milliseconds, in
the exact elif order of the source.  Python int() is pyInt, Python
floats are exact rationals. -/
def NormalizePulseParametersRow (freq period pw : ℚ) (dcIn : DutyCycleIn) :
    Except String (ℤ × ℤ) :=
  let dc := normalizeDc (parseDc dcIn)
  if 100 < dc then .error "invalid duty_cycle: duty cycle must be between 0 and 100"
  else if 0 < freq ∧ 0 < pw then
    let periodCalc := pyInt (1000 / freq)
    if (periodCalc : ℚ) < pw then .error "pulse width cannot exceed period"
    else .ok (periodCalc, pyInt pw)
  else if 0 < freq ∧ 0 < dc then
    let periodCalc := pyInt (1000 / freq)
    .ok (periodCalc, pyInt ((periodCalc : ℚ) * dc / 100))
  else if 0 < period ∧ 0 < pw then
    if period < pw then .error "pulse width cannot exceed period"
    else .ok (pyInt period, pyInt pw)
  else if 0 < period ∧ 0 < dc then
    .ok (pyInt period, pyInt (period * dc / 100))
  else if (0 < freq ∧ dc = 0 ∧ pw = 0) ∨ (0 < period ∧ dc = 0 ∧ pw = 0) then
    .error "incomplete pulse parameters"
  else if (0 < pw ∧ freq = 0 ∧ period = 0) ∨ (0 < dc ∧ freq = 0 ∧ period = 0) then
    .error "incomplete pulse parameters"
  else .ok (0, 0)

/-- Claim C3 counterexample: the resolver truncates instead of rounding
to nearest.  For frequency 6 the code computes period int(1000/6) = 166
while round(1000/6) = 167, and for frequency 100 with duty cycle 15 the
code computes pulse width int(10 * 15 / 100) = 1 while rounding gives 2. -/
theorem c3_pulse_resolver_counterexample :
    NormalizePulseParametersRow 6 0 100 (.num 0) = .ok (166, 100) ∧
    round ((1000 : ℚ) / 6) = 167 ∧
    NormalizePulseParametersRow 100 0 0 (.num 15) = .ok (10, 1) ∧
    round ((10 : ℚ) * 15 / 100) = 2 := by
  refine ⟨?_, ?_, ?_, ?_⟩ <;>
    norm_num [NormalizePulseParametersRow, parseDc, normalizeDc, pyInt, round_eq]

/-- Claim C3 as amended: for rows combining positive frequency with a
positive pulse width or duty cycle, the resolver computes
period = int(1000 / frequency), truncating toward zero (not rounding to
nearest), and when duty cycle is the second determinant it computes
pulse_width = int(period * duty_cycle / 100), also truncating. -/
theorem c3_pulse_resolver_amended (freq pw dc : ℚ) :
    (0 < freq → 0 < pw → pw ≤ (pyInt (1000 / freq) : ℚ) →
      NormalizePulseParametersRow freq 0 pw (.num 0) =
        .ok (pyInt (1000 / freq), pyInt pw)) ∧
    (0 < freq → 1 < dc → dc ≤ 100 →
      NormalizePulseParametersRow freq 0 0 (.num dc) =
        .ok (pyInt (1000 / freq), pyInt ((pyInt (1000 / freq) : ℚ) * dc / 100))) := by
  constructor
  · intro hf hp hle
    have hnd : normalizeDc (parseDc (.num 0)) = 0 := by simp [parseDc, normalizeDc]
    have h0 : ¬(100 : ℚ) < 0 := by norm_num
    have hle2 : ¬((pyInt (1000 / freq) : ℚ) < pw) := not_lt.mpr hle
    simp [NormalizePulseParametersRow, hnd, h0, hf, hp, hle2]
  · intro hf h1 h100
    have hd0 : (0 : ℚ) < dc := lt_trans one_pos h1
    have hnd : normalizeDc (parseDc (.num dc)) = dc := by
      rw [parseDc, normalizeDc, if_neg (fun h => absurd h.2 (not_le.mpr h1))]
    have hn100 : ¬(100 : ℚ) < dc := not_lt.mpr h100
    simp [NormalizePulseParametersRow, hnd, hn100, hf, hd0]

theorem c3_pulse_resolver_amended_witness :
    ((0 : ℚ) < 8 ∧ (0 : ℚ) < 100 ∧ (100 : ℚ) ≤ (pyInt (1000 / 8) : ℚ) ∧
      NormalizePulseParametersRow 8 0 100 (.num 0) = .ok (125, 100)) ∧
    ((1 : ℚ) < 40 ∧ (40 : ℚ) ≤ 100 ∧
      NormalizePulseParametersRow 8 0 0 (.num 40) = .ok (125, 50)) := by
  have h1 := (c3_pulse_resolver_amended 8 100 40).1 (by norm_num) (by norm_num)
    (by norm_num [pyInt])
  have h2 := (c3_pulse_resolver_amended 8 100 40).2 (by norm_num) (by norm_num)
    (by norm_num)
  refine ⟨⟨by norm_num, by norm_num, by norm_num [pyInt], ?_⟩,
    ⟨by norm_num, by norm_num, ?_⟩⟩
  · rw [h1]
    norm_num [pyInt]
  · rw [h2]
    norm_num [pyInt]

/-- Claim C6: the resolver fails whenever pulse width exceeds the period,
given directly or derived from frequency; fails whenever exactly one of
the two determinant groups (frequency or period versus pulse width or
duty cycle) is positive and the other is zero; and resolves to (0, 0),
a valid no pulse row, when all four inputs are zero. -/
theorem c6_pulse_resolver_errors :
    (∀ freq period pw : ℚ, 0 < freq → 0 < pw → (pyInt (1000 / freq) : ℚ) < pw →
      isErr (NormalizePulseParametersRow freq period pw (.num 0)) = true) ∧
    (∀ period pw : ℚ, 0 < period → 0 < pw → period < pw →
      isErr (NormalizePulseParametersRow 0 period pw (.num 0)) = true) ∧
    (∀ freq period : ℚ, (0 < freq ∨ 0 < period) →
      isErr (NormalizePulseParametersRow freq period 0 (.num 0)) = true) ∧
    (∀ (pw : ℚ) (dcIn : DutyCycleIn), (0 < pw ∨ 0 < normalizeDc (parseDc dcIn)) →
      isErr (NormalizePulseParametersRow 0 0 pw dcIn) = true) ∧
    (∀ dcIn : DutyCycleIn, parseDc dcIn = 0 →
      NormalizePulseParametersRow 0 0 0 dcIn = .ok (0, 0)) := by
  have hnd : normalizeDc (parseDc (.num 0)) = 0 := by simp [parseDc, normalizeDc]
  have h0 : ¬(100 : ℚ) < 0 := by norm_num
  refine ⟨?_, ?_, ?_, ?_, ?_⟩
  · intro freq period pw hf hp hlt
    simp [NormalizePulseParametersRow, hnd, h0, hf, hp, hlt, isErr]
  · intro period pw hper hp hlt
    simp [NormalizePulseParametersRow, hnd, h0, hper, hp, hlt, isErr]
  · intro freq period h
    rcases h with h | h <;>
      simp [NormalizePulseParametersRow, hnd, h0, h, isErr]
  · intro pw dcIn h
    by_cases hdc : 100 < normalizeDc (parseDc dcIn)
    · simp [NormalizePulseParametersRow, hdc, isErr]
    · rcases h with h | h <;>
        simp [NormalizePulseParametersRow, hdc, h, isErr]
  · intro dcIn h
    have hnd2 : normalizeDc (parseDc dcIn) = 0 := by rw [h]; simp [normalizeDc]
    simp [NormalizePulseParametersRow, hnd2, h0]

theorem c6_pulse_resolver_errors_witness :
    ((0 : ℚ) < 1 ∧ (0 : ℚ) < 2000 ∧ (pyInt ((1000 : ℚ) / 1) : ℚ) < 2000 ∧
      isErr (NormalizePulseParametersRow 1 0 2000 (.num 0)) = true) ∧
    ((0 : ℚ) < 100 ∧ (0 : ℚ) < 200 ∧ (100 : ℚ) < 200 ∧
      isErr (NormalizePulseParametersRow 0 100 200 (.num 0)) = true) ∧
    isErr (NormalizePulseParametersRow 0 1000 0 (.num 0)) = true ∧
    isErr (NormalizePulseParametersRow 0 0 5 (.num 0)) = true ∧
    NormalizePulseParametersRow 0 0 0 .emptyStr = .ok (0, 0) := by
  obtain ⟨h1, h2, h3, h4, h5⟩ := c6_pulse_resolver_errors
  refine ⟨⟨by norm_num, by norm_num, by norm_num [pyInt], ?_⟩,
    ⟨by norm_num, by norm_num, by norm_num, ?_⟩, ?_, ?_, ?_⟩
  · exact h1 1 0 2000 (by norm_num) (by norm_num) (by norm_num [pyInt])
  · exact h2 100 200 (by norm_num) (by norm_num) (by norm_num)
  · exact h3 0 1000 (Or.inr (by norm_num))
  · exact h4 5 (.num 0) (Or.inl (by norm_num))
  · exact h5 .emptyStr rfl

/-- Claim C7: duty cycle is accepted as a percentage with an optional
trailing percent sign or as a decimal fraction in (0, 1] scaled by 100;
0.1 and 10 resolve identically for the same period; and any duty cycle
above 100 after scaling is an error. -/
theorem c7_duty_cycle_forms :
    (∀ q : ℚ, parseDc (.pctStr q) = parseDc (.numStr q)) ∧
    (∀ q : ℚ, 0 < q → q ≤ 1 → normalizeDc q = q * 100) ∧
    (∀ per : ℚ, NormalizePulseParametersRow 0 per 0 (.num (1 / 10)) =
      NormalizePulseParametersRow 0 per 0 (.num 10)) ∧
    (∀ (freq per pw : ℚ) (dcIn : DutyCycleIn), 100 < normalizeDc (parseDc dcIn) →
      isErr (NormalizePulseParametersRow freq per pw dcIn) = true) := by
  refine ⟨fun q => rfl, ?_, ?_, ?_⟩
  · intro q hq hq1
    rw [normalizeDc, if_pos ⟨hq, hq1⟩]
  · intro per
    have heq : normalizeDc (parseDc (.num (1 / 10))) = normalizeDc (parseDc (.num 10)) := by
      simp [parseDc, normalizeDc]
      norm_num
    simp only [NormalizePulseParametersRow]
    rw [heq]
  · intro freq per pw dcIn h
    simp [NormalizePulseParametersRow, h, isErr]

theorem c7_duty_cycle_forms_witness :
    ((0 : ℚ) < 1 / 10 ∧ (1 / 10 : ℚ) ≤ 1 ∧ normalizeDc (1 / 10) = 10) ∧
    NormalizePulseParametersRow 0 1000 0 (.num (1 / 10)) =
      NormalizePulseParametersRow 0 1000 0 (.num 10) ∧
    (100 < normalizeDc (parseDc (.num 150)) ∧
      isErr (NormalizePulseParametersRow 0 1000 0 (.num 150)) = true) := by
  obtain ⟨h1, h2, h3, h4⟩ := c7_duty_cycle_forms
  refine ⟨⟨by norm_num, by norm_num, ?_⟩, h3 1000, ⟨?_, ?_⟩⟩
  · rw [h2 (1 / 10) (by norm_num) (by norm_num)]
    norm_num
  · norm_num [parseDc, normalizeDc]
  · exact h4 0 1000 0 (.num 150) (by norm_num [parseDc, normalizeDc])

/-- Python str.endswith, on the character lists underlying the strings
(the built in String.endsWith does not reduce in the kernel). -/
def pyEndsWith (s t : String) : Bool := t.data.isSuffixOf s.data

/-- A data frame column: name and rational cell values. -/
abbrev Column := String × List ℚ

/-- CorrectTime_df, src/lcfunc.py lines 2143 to 2153: divide every
column whose name ends in _time_ms by the calibration factor, then cast
every column except the first to int (fillna(0) has no effect in the
NaN free rational model).  Note that only _time_ms columns are divided:
period and pulse_width columns are merely cast to int. -/
def CorrectTime_df (df : List Column) (calib_factor : ℚ) : List Column :=
  let divided := df.map fun c =>
    if pyEndsWith c.1 "_time_ms" then (c.1, c.2.map (· / calib_factor)) else c
  match divided with
  | [] => []
  | c0 :: rest => c0 :: rest.map fun c => (c.1, c.2.map fun v => ((pyInt v : ℤ) : ℚ))

/-- CorrectTime_dict, src/lcfunc.py lines 2155 to 2159: every per
channel countdown value t becomes int(t / calib_factor). -/
def CorrectTime_dict (remaining_time : List (String × ℚ)) (calib_factor : ℚ) :
    List (String × ℤ) :=
  remaining_time.map fun p => (p.1, pyInt (p.2 / calib_factor))

/-- Claim C2 counterexample: with calibration factor 1.001 the time
corrector leaves a period column untouched (1000 stays 1000), while the
claim requires floor(1000 / 1.001) = 999 there; the time_ms column is
corrected as claimed (60000 becomes 59940). -/
theorem c2_time_corrector_counterexample :
    CorrectTime_df
        [("Sections", [1]), ("CH1_status", [1]), ("CH1_time_ms", [60000]),
         ("CH1_period", [1000]), ("CH1_pulse_width", [100])] (1001 / 1000) =
      [("Sections", [1]), ("CH1_status", [1]), ("CH1_time_ms", [59940]),
       ("CH1_period", [1000]), ("CH1_pulse_width", [100])] ∧
    pyInt ((1000 : ℚ) / (1001 / 1000)) = 999 ∧ (999 : ℚ) ≠ 1000 := by
  refine ⟨?_, by norm_num [pyInt], by norm_num⟩
  have e1 : pyEndsWith "Sections" "_time_ms" = false := by decide
  have e2 : pyEndsWith "CH1_status" "_time_ms" = false := by decide
  have e3 : pyEndsWith "CH1_time_ms" "_time_ms" = true := by decide
  have e4 : pyEndsWith "CH1_period" "_time_ms" = false := by decide
  have e5 : pyEndsWith "CH1_pulse_width" "_time_ms" = false := by decide
  simp only [CorrectTime_df, List.map_cons, List.map_nil, e1, e2, e3, e4, e5,
    Bool.false_eq_true, if_false, if_true]
  norm_num [pyInt]

/-- Claim C2 as amended: the time corrector divides only the _time_ms
columns and the per channel countdown values by the calibration factor
before truncating to int; every other column except the first is
truncated to int with its values otherwise unchanged (in particular the
period and pulse_width columns are not corrected).  For factor 1.001 a
countdown of 60000 becomes int(60000 / 1.001) = 59940. -/
theorem c2_time_corrector_amended (calib_factor : ℚ) (c0 : Column) (rest : List Column)
    (i : ℕ) (hi : i < rest.length) :
    (CorrectTime_df (c0 :: rest) calib_factor).get? (i + 1) =
      some ((rest.get ⟨i, hi⟩).1, (rest.get ⟨i, hi⟩).2.map fun v =>
        ((pyInt (if pyEndsWith (rest.get ⟨i, hi⟩).1 "_time_ms" then v / calib_factor
                 else v) : ℤ) : ℚ)) ∧
    CorrectTime_dict [("CH1", 60000)] (1001 / 1000) = [("CH1", 59940)] := by
  constructor
  · simp only [CorrectTime_df, List.map_cons, List.get?_cons_succ, List.get?_map,
      List.get?_eq_get hi, Option.map_some']
    by_cases he : pyEndsWith (rest.get ⟨i, hi⟩).1 "_time_ms"
    · simp only [List.get_eq_getElem] at he
      simp [he, List.map_map, Function.comp]
    · simp only [List.get_eq_getElem] at he
      simp [he]
  · simp only [CorrectTime_dict, List.map_cons, List.map_nil]
    norm_num [pyInt]

theorem c2_time_corrector_amended_witness :
    (CorrectTime_df [("Sections", [1]), ("CH1_period", [1000]), ("CH1_time_ms", [60000])]
        (1001 / 1000)).get? 2 = some ("CH1_time_ms", [(59940 : ℚ)]) := by
  have h := (c2_time_corrector_amended (1001 / 1000) ("Sections", [1])
    [("CH1_period", [1000]), ("CH1_time_ms", [60000])] 1 (by norm_num)).1
  rw [h]
  have he : pyEndsWith "CH1_time_ms" "_time_ms" = true := by decide
  simp only [List.get, he, if_true]
  norm_num [pyInt]

/-- Least squares fit of degree 1, np.polyfit(x, y, 1): the slope and
intercept minimizing squared error, by the closed normal equations
formula; none when the system is singular. -/
def polyfit1 (samples : List (ℚ × ℚ)) : Option (ℚ × ℚ) :=
  let n : ℚ := samples.length
  let sx := (samples.map Prod.fst).sum
  let sy := (samples.map Prod.snd).sum
  let sxy := (samples.map fun p => p.1 * p.2).sum
  let sxx := (samples.map fun p => p.1 * p.1).sum
  let d := n * sxx - sx * sx
  if d = 0 then none
  else
    let slope := (n * sxy - sx * sy) / d
    some (slope, (sy - slope * sx) / n)

/-- Sample selection and fit of CalibrateArduinoTime_v2, src/lcfunc.py
lines 1645 to 1656: the regression np.polyfit(arduino_times,
python_times, 1) runs over ALL collected timestamp pairs, including the
initial t = 0 sample. -/
def CalibrateArduinoTime_v2_fit (samples : List (ℚ × ℚ)) : Option (ℚ × ℚ) :=
  polyfit1 samples

/-- Sample selection and fit of CalibrateArduinoTime_v2_improved,
src/lcfunc.py lines 2026 to 2038: requires at least 2 collected samples
and skips the first data point (results[1:] when more than one sample
was collected) before fitting python versus arduino times. -/
def CalibrateArduinoTime_v2_improved_fit (samples : List (ℚ × ℚ)) :
    Option (ℚ × ℚ) :=
  if 2 ≤ samples.length then
    polyfit1 (if 1 < samples.length then samples.tail else samples)
  else none

/-- Claim C4 counterexample: the v2 multi timestamp fit does not exclude
the first sample.  On the three samples (0, 0.5), (1, 1), (2, 2) the v2
fit returns slope 3/4, while the fit over the tail (first sample
excluded) returns slope 1. -/
theorem c4_first_sample_counterexample :
    CalibrateArduinoTime_v2_fit [(0, 1 / 2), (1, 1), (2, 2)] = some (3 / 4, 5 / 12) ∧
    List.tail [((0 : ℚ), (1 / 2 : ℚ)), (1, 1), (2, 2)] = [((1 : ℚ), (1 : ℚ)), (2, 2)] ∧
    polyfit1 [((1 : ℚ), (1 : ℚ)), (2, 2)] = some (1, 0) ∧
    ((3 / 4 : ℚ), (5 / 12 : ℚ)) ≠ ((1 : ℚ), (0 : ℚ)) := by
  refine ⟨?_, rfl, ?_, by norm_num⟩ <;>
    norm_num [CalibrateArduinoTime_v2_fit, polyfit1]

/-- Claim C4 as amended: only the improved multi timestamp method
excludes the first collected sample (the t = 0 timestamp) from the
least squares fit when at least two samples are collected; the original
v2 method fits over all collected samples including the first. -/
theorem c4_first_sample_amended (samples : List (ℚ × ℚ)) (h : 2 ≤ samples.length) :
    CalibrateArduinoTime_v2_improved_fit samples = polyfit1 samples.tail ∧
    CalibrateArduinoTime_v2_fit samples = polyfit1 samples := by
  refine ⟨?_, rfl⟩
  unfold CalibrateArduinoTime_v2_improved_fit
  rw [if_pos h, if_pos (by omega)]

theorem c4_first_sample_amended_witness :
    2 ≤ List.length [((0 : ℚ), (1 / 2 : ℚ)), (1, 1), (2, 2)] ∧
    CalibrateArduinoTime_v2_improved_fit [((0 : ℚ), (1 / 2 : ℚ)), (1, 1), (2, 2)] =
      some (1, 0) := by
  refine ⟨by norm_num, ?_⟩
  rw [(c4_first_sample_amended [((0 : ℚ), (1 / 2 : ℚ)), (1, 1), (2, 2)] (by norm_num)).1]
  norm_num [polyfit1]

/-- Python str.startswith, on the underlying character lists. -/
def pyStartsWith (s t : String) : Bool := t.data.isPrefixOf s.data

/-- Python str.split(sep) for a nonempty separator, on character lists.
The accumulator holds the current piece reversed; the fuel only makes
the recursion structural (any fuel above the text length reproduces the
Python semantics, since every step consumes at least one character). -/
def pySplitGo (sep : List Char) : ℕ → List Char → List Char → List (List Char)
  | 0, acc, rest => [acc.reverse ++ rest]
  | fuel + 1, acc, rest =>
    if sep.isPrefixOf rest ∧ sep ≠ [] then
      acc.reverse :: pySplitGo sep fuel [] (rest.drop sep.length)
    else match rest with
      | [] => [acc.reverse]
      | c :: cs => pySplitGo sep fuel (c :: acc) cs

/-- Python str.split(sep). -/
def pySplit (s sep : String) : List String :=
  (pySplitGo sep.data (s.data.length + 1) [] s.data).map fun l => String.mk l

/-- Python str.lower() (ASCII identifiers only appear here). -/
def pyToLower (s : String) : String := String.mk (s.data.map Char.toLower)

/-- Time unit suffixes recognized by NormalizeSynonyms, src/lcfunc.py
lines 725 to 728. -/
def timeUnits : List String :=
  ["ms", "msec", "millisecond", "milliseconds",
   "s", "sec", "second", "seconds",
   "m", "min", "minute", "minutes",
   "h", "hr", "hour", "hours"]

/-- Synonym map of NormalizeSynonyms, src/lcfunc.py lines 668 to 707,
in source order. -/
def synonymMap : List (String × String) :=
  [("period", "period"), ("Period", "period"), ("PERIOD", "period"),
   ("T", "period"), ("cycle_time", "period"), ("cycletime", "period"),
   ("pulse_width", "pulse_width"), ("pulsewidth", "pulse_width"),
   ("pulsewdith", "pulse_width"), ("pulse_wdith", "pulse_width"),
   ("PulseWidth", "pulse_width"), ("Pulse_Width", "pulse_width"),
   ("PW", "pulse_width"), ("pw", "pulse_width"),
   ("on_time", "pulse_width"), ("ontime", "pulse_width"),
   ("duty_cycle", "duty_cycle"), ("dutycycle", "duty_cycle"),
   ("DutyCycle", "duty_cycle"), ("Duty_Cycle", "duty_cycle"),
   ("DC", "duty_cycle"), ("dc", "duty_cycle"), ("duty", "duty_cycle"),
   ("frequency", "frequency"), ("Frequency", "frequency"),
   ("FREQUENCY", "frequency"), ("freq", "frequency"), ("frq", "frequency"),
   ("f", "frequency"), ("hz", "frequency"), ("Hz", "frequency")]

/-- parts = col.split(underscore), src/lcfunc.py line 717. -/
def colParts (col : String) : List String := pySplit col "_"

/-- The candidate unit suffix: the last part after the channel part,
src/lcfunc.py line 734. -/
def colUnitSuffix (col : String) : String := ((colParts col).drop 1).getLastD ""

/-- Whether the column name carries a recognized time unit suffix,
src/lcfunc.py lines 730 to 737. -/
def colHasUnitSuffix (col : String) : Bool := timeUnits.contains (colUnitSuffix col)

/-- param_parts after unit suffix stripping, src/lcfunc.py lines 732 to 737. -/
def colParamParts (col : String) : List String :=
  if colHasUnitSuffix col then ((colParts col).drop 1).dropLast
  else (colParts col).drop 1

/-- param_name, src/lcfunc.py line 740. -/
def colParamName (col : String) : String := "_".intercalate (colParamParts col)

/-- Case insensitive synonym lookup excluding the case sensitive T,
src/lcfunc.py lines 754 to 759: the first map entry whose lowercase form
matches the lowercase parameter name. -/
def synonymLookup (param : String) : Option String :=
  (synonymMap.find? fun p => pyToLower param == pyToLower p.1 && p.1 != "T").map Prod.snd

/-- Per column core of NormalizeSynonyms, src/lcfunc.py lines 709 to 772:
keep the Sections column and columns without a CH prefix or underscore;
map a bare capital T to period; reject a bare lowercase t as ambiguous;
otherwise apply the case insensitive synonym map, keeping unknown names;
reattach the unit suffix when present. -/
def NormalizeSynonymsCol (col : String) : Except String String :=
  if col = "Sections" then .ok col
  else if (colParts col).length < 2 ∨ pyStartsWith ((colParts col).headD "") "CH" = false then
    .ok col
  else
    let chPrefix := (colParts col).headD ""
    if colParamName col = "T" then
      .ok (if colHasUnitSuffix col then chPrefix ++ "_period_" ++ colUnitSuffix col
           else chPrefix ++ "_period")
    else if colParamName col = "t" then
      .error "ambiguous column name: lowercase t could mean time or period"
    else
      match synonymLookup (colParamName col) with
      | none => .ok col
      | some std =>
        .ok (if colHasUnitSuffix col then chPrefix ++ "_" ++ std ++ "_" ++ colUnitSuffix col
             else chPrefix ++ "_" ++ std)

/-- Time unit multipliers of ConvertPulseTimeUnits, src/lcfunc.py lines
799 to 816. -/
def unitMultipliers : List (String × ℚ) :=
  [("ms", 1), ("msec", 1), ("millisecond", 1), ("milliseconds", 1),
   ("s", 1000), ("sec", 1000), ("second", 1000), ("seconds", 1000),
   ("m", 60000), ("min", 60000), ("minute", 60000), ("minutes", 60000),
   ("h", 3600000), ("hr", 3600000), ("hour", 3600000), ("hours", 3600000)]

/-- Per column core of ConvertPulseTimeUnits, src/lcfunc.py lines 778
to 859: for CH columns of at least three parts whose last part is a
known unit and whose middle is period or pulse_width, multiply the cell
values by the unit multiplier (only when it is not 1) and drop the unit
suffix from the name; leave every other column unchanged. -/
def ConvertPulseTimeUnitsCol (col : String) (values : List ℚ) : String × List ℚ :=
  if col = "Sections" then (col, values)
  else if (colParts col).length < 3 ∨ pyStartsWith ((colParts col).headD "") "CH" = false then
    (col, values)
  else
    match unitMultipliers.lookup ((colParts col).getLastD "") with
    | none => (col, values)
    | some m =>
      let param := "_".intercalate (((colParts col).drop 1).dropLast)
      if param = "period" ∨ param = "pulse_width" then
        (((colParts col).headD "") ++ "_" ++ param,
         if m ≠ 1 then values.map (· * m) else values)
      else (col, values)

/-- Claim C8: a column named CH1_T_s is mapped to the canonical column
CH1_period with its values multiplied by 1000; any CH column whose
parameter name after stripping a unit suffix is a bare lowercase t is
rejected as ambiguous; and a bare capital T is accepted as a period
synonym (with the unit suffix reattached when present). -/
theorem c8_unit_normalizer :
    (NormalizeSynonymsCol "CH1_T_s" = .ok "CH1_period_s" ∧
     ∀ vs : List ℚ, ConvertPulseTimeUnitsCol "CH1_period_s" vs =
       ("CH1_period", vs.map (· * 1000))) ∧
    (∀ col : String, col ≠ "Sections" → 2 ≤ (colParts col).length →
      pyStartsWith ((colParts col).headD "") "CH" = true → colParamName col = "t" →
      isErr (NormalizeSynonymsCol col) = true) ∧
    (∀ col : String, col ≠ "Sections" → 2 ≤ (colParts col).length →
      pyStartsWith ((colParts col).headD "") "CH" = true → colParamName col = "T" →
      NormalizeSynonymsCol col = .ok
        (if colHasUnitSuffix col then
          ((colParts col).headD "") ++ "_period_" ++ colUnitSuffix col
        else ((colParts col).headD "") ++ "_period")) := by
  refine ⟨⟨rfl, fun vs => rfl⟩, ?_, ?_⟩
  · intro col h1 h2 h3 h4
    simp only [NormalizeSynonymsCol]
    rw [if_neg h1, if_neg (not_or.mpr ⟨not_lt.mpr h2, by rw [h3]; simp⟩),
      if_neg (by rw [h4]; decide), if_pos h4]
    rfl
  · intro col h1 h2 h3 h4
    simp only [NormalizeSynonymsCol]
    rw [if_neg h1, if_neg (not_or.mpr ⟨not_lt.mpr h2, by rw [h3]; simp⟩), if_pos h4]

theorem c8_unit_normalizer_witness :
    ("CH2_t_s" ≠ "Sections" ∧ 2 ≤ (colParts "CH2_t_s").length ∧
      pyStartsWith ((colParts "CH2_t_s").headD "") "CH" = true ∧
      colParamName "CH2_t_s" = "t" ∧
      isErr (NormalizeSynonymsCol "CH2_t_s") = true) ∧
    NormalizeSynonymsCol "CH2_T" = .ok "CH2_period" := by
  refine ⟨⟨by decide, by decide, by decide, by decide, ?_⟩, ?_⟩
  · exact (c8_unit_normalizer.2.1) "CH2_t_s" (by decide) (by decide) (by decide) (by decide)
  · have h := (c8_unit_normalizer.2.2) "CH2_T" (by decide) (by decide) (by decide) (by decide)
    rw [h]
    rfl

/-- Python str.strip(), on the underlying character lists. -/
def pyTrim (s : String) : String :=
  String.mk (((s.data.dropWhile Char.isWhitespace).reverse.dropWhile Char.isWhitespace).reverse)

/-- Digits of a decimal literal to a natural number; none when empty or
not all digits. -/
def digitsToNat : List Char → Option ℕ
  | [] => none
  | cs =>
    if cs.all Char.isDigit then
      some (cs.foldl (fun a c => a * 10 + (c.toNat - 48)) 0)
    else none

/-- Python int(str): optional sign followed by decimal digits; none
(a ValueError in Python) otherwise. -/
def pyToInt (s : String) : Option ℤ :=
  match s.data with
  | '-' :: rest => (digitsToNat rest).map fun n => -(n : ℤ)
  | '+' :: rest => (digitsToNat rest).map fun n => (n : ℤ)
  | cs => (digitsToNat cs).map fun n => (n : ℤ)

/-- Python in operator on strings (nonempty needle). -/
def pyContains (s sub : String) : Bool := 1 < (pySplit s sub).length

/-- Greeting configuration parse of SendGreeting, src/lcfunc.py lines
1334 to 1347: split the greeting on semicolons, skip the leading Salve,
split each remaining part on the first colon, trim and lowercase the
key, parse the value as an int and skip unparsable entries. -/
def parseGreetingConfig (fb : String) : List (String × ℤ) :=
  ((pySplit fb ";").drop 1).filterMap fun part =>
    let ps := pySplit part ":"
    if ps.length ≤ 1 then none
    else match pyToInt (pyTrim (String.intercalate ":" (ps.drop 1))) with
      | none => none
      | some v => some (pyToLower (pyTrim (ps.headD "")), v)

/-- PATTERN_LENGTH capability check of SendGreeting, src/lcfunc.py lines
1356 to 1377: error when the protocol needs a longer pattern than the
device reports, proceed (the code prints a warning) when it needs a
strictly shorter one, proceed silently on exact match; the check is
skipped when either side reports no pattern length. -/
def SendGreetingCheck (expected_pattern_length : Option ℤ)
    (config : List (String × ℤ)) : Except String Unit :=
  match expected_pattern_length, config.lookup "pattern_length" with
  | some python_pl, some arduino_pl =>
    if arduino_pl < python_pl then .error "PATTERN_LENGTH MISMATCH" else .ok ()
  | _, _ => .ok ()

/-- Increment the per channel counter, Python
pattern_count[channel] = pattern_count.get(channel, 0) + 1. -/
def bumpCount : List (ℤ × ℕ) → ℤ → List (ℤ × ℕ)
  | [], ch => [(ch, 1)]
  | p :: rest, ch => if p.1 = ch then (p.1, p.2 + 1) :: rest else p :: bumpCount rest ch

/-- Pattern counting step of _validate_pattern_capacity,
src/light_controller_parser.py lines 482 to 493: only commands that
contain PATTERN_NUM: are counted, taking the channel from the text after
CHANNEL: up to the next semicolon, skipping unparsable channel text. -/
def countPatternCmd (counts : List (ℤ × ℕ)) (cmd : String) : List (ℤ × ℕ) :=
  if pyContains cmd "PATTERN_NUM:" then
    let parts := pySplit cmd "CHANNEL:"
    if 1 < parts.length then
      match pyToInt (((pySplit (parts.getD 1 "") ";").headD "")) with
      | some ch => bumpCount counts ch
      | none => counts
    else counts
  else counts

/-- _validate_pattern_capacity, src/light_controller_parser.py lines 469
to 540: count patterns per channel over the command list, return
silently when nothing was counted or when no device limit is known, and
fail when some counted channel exceeds the device limit. -/
def validate_pattern_capacity (arduino_max_patterns : Option ℤ)
    (commands : List String) : Except String Unit :=
  let pattern_count := commands.foldl countPatternCmd []
  if pattern_count = [] then .ok ()
  else match arduino_max_patterns with
    | some mx =>
      if pattern_count.any fun p => mx < (p.2 : ℤ) then
        .error "Pattern count exceeds Arduino capacity"
      else .ok ()
    | none => .ok ()

/-- Claim C9: on the greeting reporting PATTERN_LENGTH 4 the handshake
check fails for a compiled pattern length of 8 and proceeds for 2 (with
a warning) and for 4, as claimed.  But the per channel MAX_PATTERN_NUM
validation never fails on the commands this program emits: it counts
only commands containing PATTERN_NUM: and CHANNEL:, while the emitter
produces PATTERN: and CH: lines, so two patterns on channel 1 pass a
device limit of 1 silently; the same two commands written in the format
the counter expects do fail. -/
theorem c9_capability_check :
    isErr (SendGreetingCheck (some 8) (parseGreetingConfig
      "Salve;PATTERN_LENGTH:4;MAX_PATTERN_NUM:10;MAX_CHANNEL_NUM:8")) = true ∧
    SendGreetingCheck (some 2) (parseGreetingConfig
      "Salve;PATTERN_LENGTH:4;MAX_PATTERN_NUM:10;MAX_CHANNEL_NUM:8") = .ok () ∧
    SendGreetingCheck (some 4) (parseGreetingConfig
      "Salve;PATTERN_LENGTH:4;MAX_PATTERN_NUM:10;MAX_CHANNEL_NUM:8") = .ok () ∧
    validate_pattern_capacity (some 1)
      ["PATTERN:1;CH:1;STATUS:1,0;TIME_MS:1000,1000;REPEATS:2\n",
       "PATTERN:2;CH:1;STATUS:0,1;TIME_MS:500,500;REPEATS:1\n"] = .ok () ∧
    isErr (validate_pattern_capacity (some 1)
      ["CHANNEL:1;PATTERN_NUM:1;STATUS:1,0", "CHANNEL:1;PATTERN_NUM:2;STATUS:0,1"]) = true := by
  refine ⟨by decide, rfl, rfl, rfl, by decide⟩
